import Mathlib

/-!
Shallow embedding of `src/inventory_system.py`: an in-memory inventory
management system with products, customers, orders and a read-only
analytics view. Python dictionaries are modelled as association lists
(`List (String × α)`) with insert-or-replace and first-match lookup,
Python `int` as `ℤ`, prices and percentages as `ℚ`, timestamps as `ℤ`,
and raised exceptions as `Except String` results. Methods that mutate
state in place are modelled as functions returning the new state
together with the result; a method that raises midway returns the state
as mutated up to the point of the raise, mirroring Python exception
propagation.
-/

set_option autoImplicit false

namespace Inv

/-- First-match lookup in an association list, modelling `dict.get`. -/
def dictGet {α : Type} (l : List (String × α)) (k : String) : Option α :=
  (l.find? (fun pr => pr.1 == k)).map (fun pr => pr.2)

/-- Insert-or-replace, modelling `d[k] = v` on a Python dict: if the key is
present its value is replaced in place, otherwise the pair is appended. -/
def dictInsert {α : Type} (l : List (String × α)) (k : String) (v : α) :
    List (String × α) :=
  if l.any (fun pr => pr.1 == k) then
    l.map (fun pr => if pr.1 == k then (k, v) else pr)
  else
    l ++ [(k, v)]

/-- `Product.__init__` fields (`created_at` modelled as an integer clock). -/
structure Product where
  product_id : String
  name : String
  price : ℚ
  category : String
  stock_quantity : ℤ
  created_at : ℤ
  deriving Repr, DecidableEq

/-- `Product.update_stock`: raises "Insufficient stock" when the updated
quantity would be negative, otherwise adds the delta and returns the new
quantity. The pair carries the (possibly unchanged) product state. -/
def Product.update_stock (p : Product) (quantity : ℤ) :
    Product × Except String ℤ :=
  if p.stock_quantity + quantity < 0 then
    (p, Except.error "Insufficient stock")
  else
    ({ p with stock_quantity := p.stock_quantity + quantity },
      Except.ok (p.stock_quantity + quantity))

/-- `Product.apply_discount`: raises on a percentage outside `[0, 100]`,
otherwise multiplies the price by `1 - percentage / 100` and returns it. -/
def Product.apply_discount (p : Product) (percentage : ℚ) :
    Product × Except String ℚ :=
  if percentage < 0 ∨ percentage > 100 then
    (p, Except.error "Invalid discount percentage")
  else
    ({ p with price := p.price * (1 - percentage / 100) },
      Except.ok (p.price * (1 - percentage / 100)))

/-- `OrderItem.__init__` fields. -/
structure OrderItem where
  product_id : String
  quantity : ℤ
  unit_price : ℚ
  deriving Repr, DecidableEq

/-- `OrderItem.get_total_price`. -/
def OrderItem.get_total_price (it : OrderItem) : ℚ :=
  it.quantity * it.unit_price

/-- `Customer.__init__` fields (`phone`/`address` optional). -/
structure Customer where
  customer_id : String
  name : String
  email : String
  phone : Option String := none
  address : Option String := none
  deriving Repr, DecidableEq

/-- `Order.__init__` fields: the order embeds its customer object, as the
Python code stores a direct reference; status starts as "pending". -/
structure Order where
  order_id : String
  customer : Customer
  items : List OrderItem
  created_at : ℤ
  status : String := "pending"
  deriving Repr, DecidableEq

/-- `Order.calculate_total`: sum of quantity × unit price over the items. -/
def Order.calculate_total (o : Order) : ℚ :=
  (o.items.map (fun it => it.get_total_price)).sum

/-- `InventoryManager.__init__`: three dictionaries. -/
structure InventoryManager where
  products : List (String × Product) := []
  orders : List (String × Order) := []
  customers : List (String × Customer) := []
  deriving Repr, DecidableEq

/-- `InventoryManager.get_product`. -/
def InventoryManager.get_product (inv : InventoryManager) (product_id : String) :
    Option Product :=
  dictGet inv.products product_id

/-- `InventoryManager.update_product_stock`: raises "Product not found" on an
unknown id, otherwise delegates to `Product.update_stock` and stores the
(possibly unchanged) product back. -/
def InventoryManager.update_product_stock (inv : InventoryManager)
    (product_id : String) (quantity_change : ℤ) :
    InventoryManager × Except String ℤ :=
  match inv.get_product product_id with
  | none => (inv, Except.error "Product not found")
  | some p =>
    let res := p.update_stock quantity_change
    ({ inv with products := dictInsert inv.products product_id res.1 }, res.2)

/-- `InventoryManager.search_products`: linear scan with AND-combined
filters. A filter is skipped when its value is falsy in Python: `None`,
an empty category string, or a zero price bound. -/
def InventoryManager.search_products (inv : InventoryManager)
    (category : Option String) (min_price max_price : Option ℚ) :
    List Product :=
  (inv.products.map (fun pr => pr.2)).filter (fun product =>
    (match category with
      | none => true
      | some c => c == "" || product.category == c) &&
    (match min_price with
      | none => true
      | some m => m == 0 || !(product.price < m)) &&
    (match max_price with
      | none => true
      | some m => m == 0 || !(product.price > m)))

/-- `InventoryManager.get_low_stock_products`. -/
def InventoryManager.get_low_stock_products (inv : InventoryManager)
    (threshold : ℤ) : List Product :=
  (inv.products.map (fun pr => pr.2)).filter
    (fun p => decide (p.stock_quantity ≤ threshold))

/-- One entry of the `items_data` list passed to `create_order`:
a dict with keys "product_id" and "quantity". -/
structure ItemData where
  product_id : String
  quantity : ℤ
  deriving Repr, DecidableEq

/-- The validation loop of `create_order` (lines building `order_items`):
for each requested line, raises "not found" on an unknown product and
"Insufficient stock" when the line's quantity exceeds the product's current
stock; otherwise captures the product's current price in an `OrderItem`.
This loop only reads the repository, it never mutates it. -/
def build_order_items (inv : InventoryManager) :
    List ItemData → Except String (List OrderItem)
  | [] => Except.ok []
  | item_data :: rest =>
    match inv.get_product item_data.product_id with
    | none => Except.error ("Product " ++ item_data.product_id ++ " not found")
    | some product =>
      if product.stock_quantity < item_data.quantity then
        Except.error ("Insufficient stock for " ++ product.name)
      else
        match build_order_items inv rest with
        | Except.error e => Except.error e
        | Except.ok items =>
          Except.ok ({ product_id := product.product_id,
                       quantity := item_data.quantity,
                       unit_price := product.price } :: items)

/-- The stock-decrement loop at the end of `create_order`: applies
`update_product_stock` for each order item in turn; a failing update stops
the loop, leaving the updates already applied in place (the exception
propagates out of `create_order`). -/
def applyStockUpdates (inv : InventoryManager) :
    List OrderItem → InventoryManager × Except String Unit
  | [] => (inv, Except.ok ())
  | item :: rest =>
    let res := inv.update_product_stock item.product_id (-item.quantity)
    match res.2 with
    | Except.error e => (res.1, Except.error e)
    | Except.ok _ => applyStockUpdates res.1 rest

/-- Zero-padding of `n` to at least six digits, modelling the Python
format specifier `:06d` for a non-negative argument. -/
def pad6 (n : ℕ) : String :=
  let s := toString n
  String.mk (List.replicate (6 - s.length) '0') ++ s

/-- `InventoryManager.create_order`: validates the customer and every
requested line (via `build_order_items`) without touching state, then
stores the new order under id `ORD-` + (number of stored orders + 1)
zero-padded to six digits, and only then decrements stock line by line.
A failure during the decrement phase leaves the stored order and the
partial decrements in place, as the Python exception does. -/
def InventoryManager.create_order (inv : InventoryManager)
    (customer_id : String) (items_data : List ItemData) (now : ℤ) :
    InventoryManager × Except String Order :=
  match dictGet inv.customers customer_id with
  | none => (inv, Except.error "Customer not found")
  | some customer =>
    match build_order_items inv items_data with
    | Except.error e => (inv, Except.error e)
    | Except.ok order_items =>
      let order_id := "ORD-" ++ pad6 (inv.orders.length + 1)
      let order : Order :=
        { order_id := order_id, customer := customer, items := order_items,
          created_at := now, status := "pending" }
      let inv1 := { inv with orders := dictInsert inv.orders order_id order }
      let res := applyStockUpdates inv1 order_items
      (res.1, res.2.map (fun _ => order))

/-- `InventoryManager.add_product`: raises on a duplicate id. -/
def InventoryManager.add_product (inv : InventoryManager) (product : Product) :
    InventoryManager × Except String Product :=
  if inv.products.any (fun pr => pr.1 == product.product_id) then
    (inv, Except.error "Product already exists")
  else
    ({ inv with products := dictInsert inv.products product.product_id product },
      Except.ok product)

/-- `InventoryManager.add_customer`: unconditional insert/overwrite. -/
def InventoryManager.add_customer (inv : InventoryManager) (customer : Customer) :
    InventoryManager :=
  { inv with customers := dictInsert inv.customers customer.customer_id customer }

/-- The statuses counted by the analytics queries. -/
def revenueStatuses : List String := ["confirmed", "shipped", "delivered"]

/-- The date-range filter used by `calculate_revenue`: an absent bound
imposes no constraint (a `datetime` is always truthy in Python), a present
bound is inclusive. -/
def inDateRange (start_date end_date : Option ℤ) (t : ℤ) : Bool :=
  (match start_date with
    | none => true
    | some s => !(t < s)) &&
  (match end_date with
    | none => true
    | some e => !(t > e))

/-- `SalesAnalytics.calculate_revenue`: iterates the order dict, skips
orders outside the optional inclusive date bounds, and adds
`calculate_total()` for orders whose status is confirmed, shipped or
delivered. -/
def calculate_revenue (inv : InventoryManager)
    (start_date end_date : Option ℤ) : ℚ :=
  go (inv.orders.map (fun pr => pr.2))
where
  /-- The loop of `calculate_revenue`, accumulating into `total`. -/
  go : List Order → ℚ
    | [] => 0
    | order :: rest =>
      if inDateRange start_date end_date order.created_at &&
          revenueStatuses.contains order.status then
        order.calculate_total + go rest
      else
        go rest

/-- Add-or-increment on the `product_sales` dict of
`get_top_selling_products`. -/
def bumpSales (sales : List (String × ℤ)) (pid : String) (q : ℤ) :
    List (String × ℤ) :=
  if sales.any (fun pr => pr.1 == pid) then
    sales.map (fun pr => if pr.1 == pid then (pr.1, pr.2 + q) else pr)
  else
    sales ++ [(pid, q)]

/-- Stable descending insertion by the quantity component, modelling
Python's stable `sorted(..., key=lambda x: x[1], reverse=True)`: an element
is placed before the first strictly smaller quantity, so ties keep their
original (insertion) order. -/
def insertByQtyDesc (x : String × ℤ) : List (String × ℤ) → List (String × ℤ)
  | [] => [x]
  | y :: ys => if y.2 < x.2 then x :: y :: ys else y :: insertByQtyDesc x ys

/-- Stable descending sort by quantity (see `insertByQtyDesc`). -/
def sortByQtyDesc (l : List (String × ℤ)) : List (String × ℤ) :=
  l.foldr insertByQtyDesc []

/-- One entry of the list returned by `get_top_selling_products`. -/
structure TopEntry where
  product_id : String
  name : String
  quantity_sold : ℤ
  deriving Repr, DecidableEq

/-- `SalesAnalytics.get_top_selling_products`: aggregates item quantities
over orders with status confirmed/shipped/delivered in iteration order,
sorts descending by quantity sold, truncates to `limit`, and keeps only
products still present in the repository. -/
def get_top_selling_products (inv : InventoryManager) (limit : ℕ) :
    List TopEntry :=
  let product_sales :=
    inv.orders.foldl (fun sales pr =>
      if revenueStatuses.contains pr.2.status then
        pr.2.items.foldl (fun s it => bumpSales s it.product_id it.quantity) sales
      else sales) []
  let sorted_products := sortByQtyDesc product_sales
  (sorted_products.take limit).filterMap (fun pr =>
    (inv.get_product pr.1).map (fun product =>
      { product_id := pr.1, name := product.name, quantity_sold := pr.2 }))

/-- The mapping returned by `get_customer_analytics`. -/
structure CustomerAnalytics where
  customer_name : String
  total_orders : ℕ
  total_spent : ℚ
  average_order_value : ℚ
  deriving Repr, DecidableEq

/-- `SalesAnalytics.get_customer_analytics`: `None` for an unknown
customer; otherwise counts every order of the customer (cancelled
included), sums totals over non-cancelled orders, and divides the sum by
the full order count (0 when there are no orders). -/
def get_customer_analytics (inv : InventoryManager) (customer_id : String) :
    Option CustomerAnalytics :=
  match dictGet inv.customers customer_id with
  | none => none
  | some customer =>
    let customer_orders :=
      (inv.orders.map (fun pr => pr.2)).filter
        (fun o => o.customer.customer_id == customer_id)
    let total_spent :=
      ((customer_orders.filter (fun o => o.status != "cancelled")).map
        (fun o => o.calculate_total)).sum
    let order_count := customer_orders.length
    some
      { customer_name := customer.name
        total_orders := order_count
        total_spent := total_spent
        average_order_value :=
          if order_count > 0 then total_spent / order_count else 0 }

/-! ### Operations for the stock-nonnegativity invariant (C3)

A repository-level step: `Product.update_stock` and `Product.apply_discount`
act on products held in the repository dictionary (Python mutates the dict's
product object in place, modelled as a lookup followed by a write-back);
`update_product_stock` and `create_order` are the manager methods. The
post-state is taken whether the operation succeeds or raises, mirroring
Python exception propagation. -/

/-- A single repository operation (see the section comment above). -/
inductive Op where
  | updateStock (product_id : String) (delta : ℤ)
  | applyDiscount (product_id : String) (percentage : ℚ)
  | createOrder (customer_id : String) (items : List ItemData) (now : ℤ)
  deriving Repr

/-- The state reached after one operation, error or not. -/
def applyOp (inv : InventoryManager) : Op → InventoryManager
  | Op.updateStock pid d => (inv.update_product_stock pid d).1
  | Op.applyDiscount pid pct =>
    match inv.get_product pid with
    | none => inv
    | some p =>
      { inv with products := dictInsert inv.products pid (p.apply_discount pct).1 }
  | Op.createOrder cid items now => (inv.create_order cid items now).1

/-- Every product stored in the repository has non-negative stock. -/
def allStockNonneg (inv : InventoryManager) : Prop :=
  ∀ pr ∈ inv.products, 0 ≤ pr.2.stock_quantity

/-! ### Helper lemmas -/

theorem dictGet_dictInsert {α : Type} (l : List (String × α)) (k : String)
    (v : α) : dictGet (dictInsert l k v) k = some v := by
  induction l with
  | nil => simp [dictGet, dictInsert]
  | cons hd tl ih =>
    by_cases hhd : hd.1 = k
    · simp [dictInsert, dictGet, hhd]
    · by_cases htl : tl.any (fun pr => pr.1 == k)
      · simpa [dictInsert, dictGet, hhd, htl] using ih
      · simpa [dictInsert, dictGet, hhd, htl] using ih

theorem dictInsert_pred {α : Type} (P : α → Prop) (l : List (String × α))
    (k : String) (v : α) (hl : ∀ pr ∈ l, P pr.2) (hv : P v) :
    ∀ pr ∈ dictInsert l k v, P pr.2 := by
  intro pr hpr
  unfold dictInsert at hpr
  by_cases hany : l.any (fun pr => pr.1 == k)
  · rw [if_pos hany] at hpr
    rcases List.mem_map.mp hpr with ⟨q, hq, hqeq⟩
    by_cases hqk : q.1 = k
    · simp [hqk] at hqeq
      rw [← hqeq]
      exact hv
    · simp [hqk] at hqeq
      rw [← hqeq]
      exact hl q hq
  · rw [if_neg hany] at hpr
    rcases List.mem_append.mp hpr with h | h
    · exact hl pr h
    · simp at h
      rw [h]
      exact hv

theorem get_product_nonneg (inv : InventoryManager) (pid : String)
    (p : Product) (hinv : allStockNonneg inv)
    (h : inv.get_product pid = some p) : 0 ≤ p.stock_quantity := by
  unfold InventoryManager.get_product dictGet at h
  rcases hfind : inv.products.find? (fun pr => pr.1 == pid) with _ | pr
  · rw [hfind] at h
    simp at h
  · rw [hfind] at h
    simp at h
    have hmem := List.mem_of_find?_eq_some hfind
    rw [← h]
    exact hinv pr hmem

theorem update_stock_nonneg (p : Product) (q : ℤ)
    (h : 0 ≤ p.stock_quantity) :
    0 ≤ (p.update_stock q).1.stock_quantity := by
  unfold Product.update_stock
  by_cases hc : p.stock_quantity + q < 0
  · simpa [hc] using h
  · simp [hc]
    omega

theorem update_product_stock_nonneg (inv : InventoryManager) (pid : String)
    (d : ℤ) (h : allStockNonneg inv) :
    allStockNonneg (inv.update_product_stock pid d).1 := by
  unfold InventoryManager.update_product_stock
  rcases hget : inv.get_product pid with _ | p
  · simpa using h
  · have h' : ∀ pr ∈ inv.products, 0 ≤ pr.2.stock_quantity := h
    intro pr hpr
    refine dictInsert_pred (fun q => 0 ≤ q.stock_quantity) _ _ _ h' ?_ pr hpr
    exact update_stock_nonneg p d (get_product_nonneg inv pid p h hget)

theorem applyStockUpdates_nonneg (inv : InventoryManager)
    (items : List OrderItem) (h : allStockNonneg inv) :
    allStockNonneg (applyStockUpdates inv items).1 := by
  induction items generalizing inv with
  | nil => simpa [applyStockUpdates] using h
  | cons it rest ih =>
    unfold applyStockUpdates
    rcases hres : (inv.update_product_stock it.product_id (-it.quantity)).2 with e | v
    · simp [hres]
      exact update_product_stock_nonneg inv it.product_id (-it.quantity) h
    · simp [hres]
      exact ih _ (update_product_stock_nonneg inv it.product_id (-it.quantity) h)

theorem update_product_stock_orders (inv : InventoryManager) (pid : String)
    (d : ℤ) : (inv.update_product_stock pid d).1.orders = inv.orders := by
  unfold InventoryManager.update_product_stock
  rcases inv.get_product pid with _ | p <;> simp

theorem applyStockUpdates_orders (inv : InventoryManager)
    (items : List OrderItem) :
    (applyStockUpdates inv items).1.orders = inv.orders := by
  induction items generalizing inv with
  | nil => simp [applyStockUpdates]
  | cons it rest ih =>
    unfold applyStockUpdates
    rcases hres : (inv.update_product_stock it.product_id (-it.quantity)).2 with e | v
    · simp [hres, update_product_stock_orders]
    · simp [hres, ih, update_product_stock_orders]

theorem create_order_nonneg (inv : InventoryManager) (cid : String)
    (items : List ItemData) (now : ℤ) (h : allStockNonneg inv) :
    allStockNonneg (inv.create_order cid items now).1 := by
  unfold InventoryManager.create_order
  rcases dictGet inv.customers cid with _ | cust
  · simpa using h
  · rcases build_order_items inv items with e | its
    · simpa using h
    · simp only []
      exact applyStockUpdates_nonneg _ its h

theorem applyDiscount_stock (p : Product) (pct : ℚ) :
    (p.apply_discount pct).1.stock_quantity = p.stock_quantity := by
  unfold Product.apply_discount
  by_cases hc : pct < 0 ∨ pct > 100 <;> simp [hc]

theorem applyOp_nonneg (inv : InventoryManager) (op : Op)
    (h : allStockNonneg inv) : allStockNonneg (applyOp inv op) := by
  rcases op with ⟨pid, d⟩ | ⟨pid, pct⟩ | ⟨cid, items, now⟩
  · exact update_product_stock_nonneg inv pid d h
  · simp only [applyOp]
    rcases hget : inv.get_product pid with _ | p
    · exact h
    · show allStockNonneg
        { inv with products := dictInsert inv.products pid (p.apply_discount pct).1 }
      have h' : ∀ pr ∈ inv.products, 0 ≤ pr.2.stock_quantity := h
      intro pr hpr
      refine dictInsert_pred (fun q => 0 ≤ q.stock_quantity) _ _ _ h' ?_ pr hpr
      show 0 ≤ (p.apply_discount pct).1.stock_quantity
      rw [applyDiscount_stock]
      exact get_product_nonneg inv pid p h hget
  · exact create_order_nonneg inv cid items now h

/-! ### Concrete fixtures for witnesses and counterexamples -/

/-- A concrete product used by witnesses. -/
def prodW : Product :=
  { product_id := "P", name := "Widget", price := 10, category := "cat",
    stock_quantity := 5, created_at := 0 }

/-- A concrete customer used by witnesses. -/
def custW : Customer := { customer_id := "C", name := "N", email := "n@x" }

/-- A concrete repository: one product, one customer, no orders. -/
def invW : InventoryManager :=
  { products := [("P", prodW)], customers := [("C", custW)] }

/-- A concrete operation sequence exercising every operation kind. -/
def opsW : List Op :=
  [Op.updateStock "P" (-2), Op.applyDiscount "P" 50,
   Op.createOrder "C" [{ product_id := "P", quantity := 2 }] 1,
   Op.updateStock "P" (-10)]

/-! ### Claim theorems -/

/-- C4: `update_stock(delta)` fails with the validation error exactly when
`stock_quantity + delta` is negative; on failure the product is unchanged,
and on success the stock equals the old value plus delta and is returned. -/
theorem C4_update_stock_spec (p : Product) (q : ℤ) :
    ((p.update_stock q).2 = Except.error "Insufficient stock" ↔
      p.stock_quantity + q < 0) ∧
    (p.stock_quantity + q < 0 → (p.update_stock q).1 = p) ∧
    (0 ≤ p.stock_quantity + q →
      (p.update_stock q).1.stock_quantity = p.stock_quantity + q ∧
      (p.update_stock q).2 = Except.ok (p.stock_quantity + q)) := by
  unfold Product.update_stock
  by_cases hc : p.stock_quantity + q < 0
  · simp [hc]
  · simp [hc]

/-- Witness for C4 at a concrete product with stock 5 and delta −6. -/
theorem C4_update_stock_spec_witness :
    prodW.stock_quantity + (-6) < 0 ∧ (prodW.update_stock (-6)).1 = prodW :=
  ⟨by decide, (C4_update_stock_spec prodW (-6)).2.1 (by decide)⟩

/-- C5: `apply_discount(0)` leaves the price unchanged, `apply_discount(100)`
sets it to 0, a percentage outside `[0,100]` fails with the validation error
leaving the product unchanged, and an in-range percentage multiplies the
price by `1 - percentage/100`. -/
theorem C5_apply_discount_spec (p : Product) (pct : ℚ) :
    (p.apply_discount 0).1.price = p.price ∧
    (p.apply_discount 100).1.price = 0 ∧
    (pct < 0 ∨ 100 < pct →
      p.apply_discount pct = (p, Except.error "Invalid discount percentage")) ∧
    (0 ≤ pct → pct ≤ 100 →
      (p.apply_discount pct).1.price = p.price * (1 - pct / 100)) := by
  refine ⟨?_, ?_, ?_, ?_⟩
  · unfold Product.apply_discount
    norm_num
  · unfold Product.apply_discount
    norm_num
  · intro hc
    unfold Product.apply_discount
    rw [if_pos hc]
  · intro h1 h2
    unfold Product.apply_discount
    rw [if_neg (by push_neg; exact ⟨h1, h2⟩)]

/-- Witness for C5 at a concrete product and the out-of-range percentage
150. -/
theorem C5_apply_discount_spec_witness :
    ((150 : ℚ) < 0 ∨ (100 : ℚ) < 150) ∧
    prodW.apply_discount 150 = (prodW, Except.error "Invalid discount percentage") :=
  ⟨by norm_num, (C5_apply_discount_spec prodW 150).2.2.1 (by norm_num)⟩

/-- C3: starting from a repository whose products all have non-negative
stock, every sequence of operations (stock updates, discounts, order
creations — errors included) leaves every stock quantity non-negative. -/
theorem C3_stock_never_negative (inv : InventoryManager) (ops : List Op)
    (h : allStockNonneg inv) : allStockNonneg (ops.foldl applyOp inv) := by
  induction ops generalizing inv with
  | nil => exact h
  | cons op rest ih => exact ih (applyOp inv op) (applyOp_nonneg inv op h)

/-- Witness for C3 on a concrete repository and operation list that hits
every operation kind, including a rejected stock update. -/
theorem C3_stock_never_negative_witness :
    allStockNonneg (opsW.foldl applyOp invW) :=
  C3_stock_never_negative invW opsW (by unfold allStockNonneg; decide)

/-- C9: `search_products` with `min_price = 0` returns exactly the products
returned with no `min_price` filter, the other filters held equal: a zero
minimum price imposes no constraint. -/
theorem C9_search_min_price_zero (inv : InventoryManager)
    (category : Option String) (max_price : Option ℚ) :
    inv.search_products category (some 0) max_price =
      inv.search_products category none max_price := by
  unfold InventoryManager.search_products
  refine List.filter_congr ?_
  intro x hx
  simp

theorem calculate_revenue_go_eq (s e : Option ℤ) (l : List Order) :
    calculate_revenue.go s e l =
      ((l.filter (fun o => inDateRange s e o.created_at &&
          revenueStatuses.contains o.status)).map
        (fun o => o.calculate_total)).sum := by
  induction l with
  | nil => simp [calculate_revenue.go]
  | cons o rest ih =>
    by_cases hc : inDateRange s e o.created_at = true ∧ o.status ∈ revenueStatuses
    · simp [calculate_revenue.go, List.filter_cons, hc, ih]
    · simp [calculate_revenue.go, List.filter_cons, hc, ih]

theorem revenue_filter_pointwise (s e : Option ℤ) (o : Order) :
    (inDateRange s e o.created_at && revenueStatuses.contains o.status) =
    (revenueStatuses.contains o.status &&
      s.all (fun x => decide (x ≤ o.created_at)) &&
      e.all (fun y => decide (o.created_at ≤ y))) := by
  apply Bool.eq_iff_iff.mpr
  rcases s with _ | sv <;> rcases e with _ | ev <;>
    simp [inDateRange, not_lt] <;> tauto

/-- C8: `calculate_revenue` sums `calculate_total()` over exactly the orders
whose status is confirmed, shipped or delivered and whose creation timestamp
lies within the supplied bounds, both bounds inclusive; an absent bound
imposes no constraint. -/
theorem C8_calculate_revenue_spec (inv : InventoryManager) (s e : Option ℤ) :
    calculate_revenue inv s e =
      (((inv.orders.map (fun pr => pr.2)).filter (fun o =>
          revenueStatuses.contains o.status &&
          s.all (fun x => decide (x ≤ o.created_at)) &&
          e.all (fun y => decide (o.created_at ≤ y)))).map
        (fun o => o.calculate_total)).sum := by
  show calculate_revenue.go s e (inv.orders.map (fun pr => pr.2)) = _
  rw [calculate_revenue_go_eq]
  have hfilter := List.filter_congr
    (fun o _ => revenue_filter_pointwise s e o)
    (l := inv.orders.map (fun pr => pr.2))
  rw [hfilter]

/-- A cancelled order of total 100 for customer `custW`. -/
def ordC2a : Order :=
  { order_id := "ORD-000001", customer := custW,
    items := [{ product_id := "X", quantity := 1, unit_price := 100 }],
    created_at := 0, status := "cancelled" }

/-- A confirmed order of total 50 for customer `custW`. -/
def ordC2b : Order :=
  { order_id := "ORD-000002", customer := custW,
    items := [{ product_id := "Y", quantity := 1, unit_price := 50 }],
    created_at := 0, status := "confirmed" }

/-- A repository holding exactly the two orders above. -/
def invC2 : InventoryManager :=
  { customers := [("C", custW)],
    orders := [("ORD-000001", ordC2a), ("ORD-000002", ordC2b)] }

/-- C2: counterexample — for a known customer with exactly one cancelled
order of total 100 and one confirmed order of total 50, the code returns
average_order_value = total_spent / total order count = 50 / 2 = 25, not 50
as the claim states. -/
theorem C2_counterexample :
    get_customer_analytics invC2 "C" =
      some { customer_name := "N", total_orders := 2, total_spent := 50,
             average_order_value := 25 } ∧
    (25 : ℚ) ≠ 50 := by
  constructor
  · simp only [get_customer_analytics, invC2, ordC2a, ordC2b, custW, dictGet,
      Order.calculate_total, OrderItem.get_total_price, List.find?, List.map,
      List.filter, List.sum_cons, List.sum_nil]
    norm_num
  · norm_num

/-- C2 amended: for a known customer with exactly one cancelled order of
total 100 and one confirmed order of total 50, `get_customer_analytics`
returns total_orders = 2, total_spent = 50 and average_order_value = 25
(total_spent divided by the count of all orders, cancelled included). -/
theorem C2_customer_analytics (inv : InventoryManager) (cid : String)
    (cust : Customer) (k1 k2 : String) (o1 o2 : Order)
    (hc : dictGet inv.customers cid = some cust)
    (ho : inv.orders = [(k1, o1), (k2, o2)])
    (h1 : o1.customer.customer_id = cid) (h2 : o2.customer.customer_id = cid)
    (hs1 : o1.status = "cancelled") (hs2 : o2.status = "confirmed")
    (_ht1 : o1.calculate_total = 100) (ht2 : o2.calculate_total = 50) :
    get_customer_analytics inv cid =
      some { customer_name := cust.name, total_orders := 2, total_spent := 50,
             average_order_value := 25 } := by
  simp [get_customer_analytics, hc, ho, h1, h2, hs1, hs2, ht2]
  norm_num

/-- Witness for C2 on the concrete repository `invC2`. -/
theorem C2_customer_analytics_witness :
    get_customer_analytics invC2 "C" =
      some { customer_name := "N", total_orders := 2, total_spent := 50,
             average_order_value := 25 } :=
  C2_customer_analytics invC2 "C" custW "ORD-000001" "ORD-000002" ordC2a ordC2b
    (by decide) rfl rfl rfl rfl rfl
    (by norm_num [ordC2a, Order.calculate_total, OrderItem.get_total_price])
    (by norm_num [ordC2b, Order.calculate_total, OrderItem.get_total_price])

/-- The order stored when requesting quantity 0 of product `"P"` in `invW`. -/
def ordC6 : Order :=
  { order_id := "ORD-000001", customer := custW,
    items := [{ product_id := "P", quantity := 0, unit_price := 10 }],
    created_at := 7, status := "pending" }

/-- C6: counterexample — `create_order` accepts a requested line with
quantity 0: the call succeeds and the stored order's line has quantity 0,
which is not positive. -/
theorem C6_counterexample :
    (invW.create_order "C" [{ product_id := "P", quantity := 0 }] 7).2 =
      Except.ok ordC6 ∧
    dictGet (invW.create_order "C"
        [{ product_id := "P", quantity := 0 }] 7).1.orders "ORD-000001" =
      some ordC6 ∧
    ¬ (∀ it ∈ ordC6.items, 0 < it.quantity) := by
  refine ⟨rfl, rfl, ?_⟩
  intro h
  exact absurd (h { product_id := "P", quantity := 0, unit_price := 10 }
    (by decide)) (by decide)

theorem exceptMap_ok {ε α β : Type} (f : α → β) (r : Except ε α) (b : β)
    (h : Except.map f r = Except.ok b) : ∃ a, r = Except.ok a ∧ f a = b := by
  cases r with
  | error e => simp [Except.map] at h
  | ok a =>
    simp [Except.map] at h
    exact ⟨a, rfl, h⟩

theorem build_order_items_quantities (inv : InventoryManager)
    (items : List ItemData) (its : List OrderItem)
    (h : build_order_items inv items = Except.ok its) :
    its.map (fun it => it.quantity) = items.map (fun d => d.quantity) := by
  induction items generalizing its with
  | nil =>
    simp [build_order_items] at h
    rw [h]
    simp
  | cons d rest ih =>
    unfold build_order_items at h
    split at h
    · exact absurd h (by simp)
    · split at h
      · exact absurd h (by simp)
      · split at h
        · exact absurd h (by simp)
        next items0 hb =>
          injection h with h
          rw [← h]
          simp [ih items0 hb]

/-- Inversion of a successful `create_order`: the customer was found, the
validation loop succeeded, and the returned order is the freshly built one
(sequential id, pending status, the validated items, the call's clock). -/
theorem create_order_ok (inv : InventoryManager) (cid : String)
    (items : List ItemData) (now : ℤ) (ord : Order)
    (h : (inv.create_order cid items now).2 = Except.ok ord) :
    ∃ cust its, dictGet inv.customers cid = some cust ∧
      build_order_items inv items = Except.ok its ∧
      ord = { order_id := "ORD-" ++ pad6 (inv.orders.length + 1),
              customer := cust, items := its, created_at := now,
              status := "pending" } := by
  unfold InventoryManager.create_order at h
  split at h
  · exact absurd h (by simp)
  next cust hc =>
    split at h
    · exact absurd h (by simp)
    next its hb =>
      simp only [] at h
      rcases exceptMap_ok _ _ _ h with ⟨u, _, hfo⟩
      exact ⟨cust, its, hc, hb, hfo.symm⟩

/-- C6 amended: the lines stored by a successful `create_order` carry
exactly the requested quantities — positivity is not validated, so a stored
quantity is positive precisely when the request was; in particular if every
requested quantity is positive, so is every stored one. -/
theorem C6_order_item_quantities (inv : InventoryManager) (cid : String)
    (items : List ItemData) (now : ℤ) (ord : Order)
    (h : (inv.create_order cid items now).2 = Except.ok ord) :
    ord.items.map (fun it => it.quantity) = items.map (fun d => d.quantity) ∧
    ((∀ d ∈ items, 0 < d.quantity) → ∀ it ∈ ord.items, 0 < it.quantity) := by
  rcases create_order_ok inv cid items now ord h with ⟨cust, its, hc, hb, hord⟩
  have hitems : ord.items = its := by rw [hord]
  have hmap := build_order_items_quantities inv items its hb
  constructor
  · rw [hitems]
    exact hmap
  · intro hpos it hit
    rw [hitems] at hit
    have hq : it.quantity ∈ its.map (fun it => it.quantity) :=
      List.mem_map_of_mem _ hit
    rw [hmap] at hq
    rcases List.mem_map.mp hq with ⟨d, hd, hdq⟩
    rw [← hdq]
    exact hpos d hd

/-- The order returned by a successful concrete `create_order` call
requesting quantity 2 of product `"P"` in `invW`. -/
def ordC6w : Order :=
  { order_id := "ORD-000001", customer := custW,
    items := [{ product_id := "P", quantity := 2, unit_price := 10 }],
    created_at := 3, status := "pending" }

/-- Witness for C6 (amended) on a successful concrete order. -/
theorem C6_order_item_quantities_witness :
    ordC6w.items.map (fun it => it.quantity) =
      ([{ product_id := "P", quantity := 2 }] : List ItemData).map
        (fun d => d.quantity) :=
  (C6_order_item_quantities invW "C" [{ product_id := "P", quantity := 2 }] 3
    ordC6w rfl).1

/-- C1: evaluation of `create_order` at the failing input — in `invW`
(product `"P"` with stock 5) an order of two lines for `"P"` of quantity 3
each passes the per-line validation, so the call stores the order and
decrements stock line by line until the second decrement fails: the call
raises "Insufficient stock" yet afterwards the stock is 2 (was 5) and the
order map holds one order (was empty), contradicting the all-or-nothing
claim. -/
theorem C1_atomicity_violation :
    (invW.create_order "C" [{ product_id := "P", quantity := 3 },
        { product_id := "P", quantity := 3 }] 0).2 =
      Except.error "Insufficient stock" ∧
    (invW.create_order "C" [{ product_id := "P", quantity := 3 },
        { product_id := "P", quantity := 3 }] 0).1.get_product "P" =
      some { prodW with stock_quantity := 2 } ∧
    (invW.create_order "C" [{ product_id := "P", quantity := 3 },
        { product_id := "P", quantity := 3 }] 0).1.orders.length = 1 ∧
    invW.get_product "P" = some prodW ∧
    invW.orders.length = 0 :=
  ⟨rfl, rfl, rfl, rfl, rfl⟩

/-- First `create_order` call of the C7 scenario: succeeds, stock 5 → 4. -/
def rC7a : InventoryManager × Except String Order :=
  invW.create_order "C" [{ product_id := "P", quantity := 1 }] 1

/-- Second call: two lines of quantity 3 pass per-line validation against
stock 4, the order is stored, then the second decrement fails. -/
def rC7b : InventoryManager × Except String Order :=
  rC7a.1.create_order "C" [{ product_id := "P", quantity := 3 },
    { product_id := "P", quantity := 3 }] 2

/-- Third call: succeeds against the remaining stock 1. -/
def rC7c : InventoryManager × Except String Order :=
  rC7b.1.create_order "C" [{ product_id := "P", quantity := 1 }] 3

/-- C7: counterexample — in the three-call scenario above the second
*successful* creation is the third call, and its id is "ORD-000003", not
"ORD-000002": the failed second call stored an order and consumed an id, so
the n-th successfully created order does not always carry id ORD-n. -/
theorem C7_counterexample :
    rC7a.2.toOption.map (fun o => o.order_id) = some "ORD-000001" ∧
    rC7b.2.toOption = none ∧
    rC7c.2.toOption.map (fun o => o.order_id) = some "ORD-000003" ∧
    "ORD-000003" ≠ "ORD-000002" :=
  ⟨rfl, rfl, rfl, by decide⟩

/-- C7 amended: every order-storing `create_order` call (valid customer and
item list — including a call that later fails while decrementing stock)
stores its order under id `ORD-` + (number of already stored orders + 1)
zero-padded to six digits, and a successful call returns an order carrying
that id; so stored orders are numbered ORD-000001, ORD-000002, … in storage
order, while a call that fails after storing still consumes its number. -/
theorem C7_order_id_assignment (inv : InventoryManager) (cid : String)
    (items : List ItemData) (now : ℤ) (cust : Customer) (its : List OrderItem)
    (h1 : dictGet inv.customers cid = some cust)
    (h2 : build_order_items inv items = Except.ok its) :
    (dictGet (inv.create_order cid items now).1.orders
        ("ORD-" ++ pad6 (inv.orders.length + 1))).map (fun o => o.order_id) =
      some ("ORD-" ++ pad6 (inv.orders.length + 1)) ∧
    ∀ ord, (inv.create_order cid items now).2 = Except.ok ord →
      ord.order_id = "ORD-" ++ pad6 (inv.orders.length + 1) := by
  constructor
  · have horders : (inv.create_order cid items now).1.orders =
        dictInsert inv.orders ("ORD-" ++ pad6 (inv.orders.length + 1))
          { order_id := "ORD-" ++ pad6 (inv.orders.length + 1),
            customer := cust, items := its, created_at := now,
            status := "pending" } := by
      unfold InventoryManager.create_order
      rw [h1, h2]
      simp only []
      rw [applyStockUpdates_orders]
    rw [horders, dictGet_dictInsert]
    rfl
  · intro ord hok
    rcases create_order_ok inv cid items now ord hok with ⟨_, _, _, _, hord⟩
    rw [hord]

/-- Witness for C7 (amended) on a successful concrete order in `invW`. -/
theorem C7_order_id_assignment_witness :
    (dictGet (invW.create_order "C"
          [{ product_id := "P", quantity := 1 }] 1).1.orders
        ("ORD-" ++ pad6 (invW.orders.length + 1))).map (fun o => o.order_id) =
      some ("ORD-" ++ pad6 (invW.orders.length + 1)) ∧
    ∀ ord, (invW.create_order "C"
        [{ product_id := "P", quantity := 1 }] 1).2 = Except.ok ord →
      ord.order_id = "ORD-" ++ pad6 (invW.orders.length + 1) :=
  C7_order_id_assignment invW "C" [{ product_id := "P", quantity := 1 }] 1
    custW [{ product_id := "P", quantity := 1, unit_price := 10 }] rfl rfl

theorem bumpSales_all_same (P : String) (items : List OrderItem) (q : ℤ)
    (hall : ∀ it ∈ items, it.product_id = P) :
    items.foldl (fun s it => bumpSales s it.product_id it.quantity) [(P, q)] =
      [(P, q + (items.map (fun it => it.quantity)).sum)] := by
  induction items generalizing q with
  | nil => simp
  | cons it rest ih =>
    have hit : it.product_id = P := hall it (by simp)
    have hrest : ∀ x ∈ rest, x.product_id = P := fun x hx => hall x (by simp [hx])
    have hbump : bumpSales [(P, q)] it.product_id it.quantity =
        [(P, q + it.quantity)] := by
      simp [bumpSales, hit]
    simp only [List.foldl_cons, hbump]
    rw [ih (q + it.quantity) hrest]
    simp [add_assoc]

theorem bumpSales_from_nil (P : String) (items : List OrderItem)
    (hne : items ≠ []) (hall : ∀ it ∈ items, it.product_id = P) :
    items.foldl (fun s it => bumpSales s it.product_id it.quantity) [] =
      [(P, (items.map (fun it => it.quantity)).sum)] := by
  cases items with
  | nil => exact absurd rfl hne
  | cons it rest =>
    have hit : it.product_id = P := hall it (by simp)
    have hrest : ∀ x ∈ rest, x.product_id = P := fun x hx => hall x (by simp [hx])
    have hbump : bumpSales [] it.product_id it.quantity =
        [(P, it.quantity)] := by
      simp [bumpSales, hit]
    simp only [List.foldl_cons, hbump]
    rw [bumpSales_all_same P rest it.quantity hrest]
    simp

/-- C10: in a repository whose orders are exactly two orders, both with a
status counted by the analytics (confirmed/shipped/delivered) and both made
up solely of lines for the same product `P` (still present in the
repository), `get_top_selling_products 1` returns exactly one entry, whose
quantity_sold is the sum of `P`'s quantities across both orders. -/
theorem C10_top_selling (inv : InventoryManager) (P : String) (prod : Product)
    (k1 k2 : String) (o1 o2 : Order)
    (ho : inv.orders = [(k1, o1), (k2, o2)])
    (hs1 : o1.status ∈ revenueStatuses) (hs2 : o2.status ∈ revenueStatuses)
    (hp1 : ∀ it ∈ o1.items, it.product_id = P)
    (hp2 : ∀ it ∈ o2.items, it.product_id = P)
    (hne1 : o1.items ≠ []) (_hne2 : o2.items ≠ [])
    (hprod : inv.get_product P = some prod) :
    get_top_selling_products inv 1 =
      [{ product_id := P, name := prod.name,
         quantity_sold := (o1.items.map (fun it => it.quantity)).sum +
           (o2.items.map (fun it => it.quantity)).sum }] := by
  have hc1 : revenueStatuses.contains o1.status = true := by simpa using hs1
  have hc2 : revenueStatuses.contains o2.status = true := by simpa using hs2
  unfold get_top_selling_products
  rw [ho]
  simp only [List.foldl_cons, List.foldl_nil, hc1, hc2, if_true]
  rw [bumpSales_from_nil P o1.items hne1 hp1,
      bumpSales_all_same P o2.items _ hp2]
  simp [sortByQtyDesc, insertByQtyDesc, List.filterMap, hprod]

/-- A confirmed order of 2 units of product `"P"`. -/
def ordC10a : Order :=
  { order_id := "ORD-000001", customer := custW,
    items := [{ product_id := "P", quantity := 2, unit_price := 10 }],
    created_at := 0, status := "confirmed" }

/-- A shipped order of 3 units of product `"P"`. -/
def ordC10b : Order :=
  { order_id := "ORD-000002", customer := custW,
    items := [{ product_id := "P", quantity := 3, unit_price := 10 }],
    created_at := 0, status := "shipped" }

/-- A repository holding exactly the two orders above. -/
def invC10 : InventoryManager :=
  { products := [("P", prodW)], customers := [("C", custW)],
    orders := [("ORD-000001", ordC10a), ("ORD-000002", ordC10b)] }

/-- Witness for C10 on the concrete repository `invC10`: one entry whose
quantity_sold is 2 + 3. -/
theorem C10_top_selling_witness :
    get_top_selling_products invC10 1 =
      [{ product_id := "P", name := prodW.name,
         quantity_sold := (ordC10a.items.map (fun it => it.quantity)).sum +
           (ordC10b.items.map (fun it => it.quantity)).sum }] :=
  C10_top_selling invC10 "P" prodW "ORD-000001" "ORD-000002" ordC10a ordC10b
    rfl (by decide) (by decide) (by decide) (by decide) (by decide) (by decide)
    rfl

end Inv
